import Mathlib

/-!
Shallow embedding of `src/common/database.cpp` (rAthena `YamlDatabase`):
the YAML-backed dataset loader.  The document tree, node lookup and
node-to-primitive conversion are capabilities of the external YAML library
(out of scope per the spec, §1); they are modelled here by an explicit
inductive tree and total Lean functions, with exceptions modelled as
`Except`.  Diagnostics (`ShowError` / `ShowWarning` / `ShowStatus` /
`ShowFatalError` calls) are modelled as an emitted list of structured
`Diag` values, one constructor per call site, carrying exactly the
arguments the call formats.
-/

set_option autoImplicit false

namespace RathenaYamlDb

/-- Severity of a diagnostic, matching the four `Show*` channels used by
the source (`ShowStatus`, `ShowWarning`, `ShowError`, `ShowFatalError`). -/
inductive Severity where
  | status
  | warning
  | error
  | fatal
deriving DecidableEq, Repr

/-- One diagnostic per `Show*` call site in `database.cpp`, carrying the
formatted arguments of that call. -/
inductive Diag where
  /-- `ShowError("No database header was found.")` -/
  | noHeader
  /-- `ShowError("No database type was found.")` -/
  | noType
  /-- `ShowError("Database type mismatch: %s != %s.")` -/
  | typeMismatch (expected actual : String)
  /-- `ShowError("Invalid header version type for %s database.")` -/
  | invalidVersionType (dbType : String)
  /-- `ShowError("Your database version %hu is not supported ... Maximum version is: %hu")` -/
  | versionTooNew (fileVersion maxVersion : Nat)
  /-- `ShowWarning("Your database version %hu is outdated ... : %hu")` -/
  | versionOutdated (fileVersion minVersion : Nat)
  /-- `ShowError("Your database version %hu is not supported anymore ... Minimum version is: %hu")` -/
  | versionTooOld (fileVersion minVersion : Nat)
  /-- `ShowError("Failed to read %s database file from %s.")` -/
  | failedRead (dbType path : String)
  /-- `ShowError("%s (Line %d: Column %d)")` -/
  | excDetail (msg : String) (line column : Int)
  /-- `ShowError("Failed to verify compatibility with %s database file from %s.")` -/
  | failedCompat (dbType path : String)
  /-- `ShowStatus("Done reading %d entries in %s")` -/
  | doneReading (count : Nat) (path : String)
  /-- `ShowFatalError("asType: No output pointer was given.")` -/
  | noOutputPointer
  /-- `ShowWarning("Unable to parse %s in line %d. Using default value...")` -/
  | parseDefault (name : String) (line : Int)
  /-- `ShowError("Unable to parse %s in line %d.")` -/
  | unableParse (name : String) (line : Int)
  /-- `ShowError("Missing node %s in line %d.")` -/
  | missingNode (name : String) (line : Int)
deriving DecidableEq, Repr

/-- Which channel each diagnostic call site uses in the source. -/
def Diag.severity : Diag → Severity
  | .versionOutdated _ _ => .warning
  | .parseDefault _ _ => .warning
  | .doneReading _ _ => .status
  | .noOutputPointer => .fatal
  | _ => .error

/-- A YAML document node (external yaml-cpp capability, modelled from the
spec's capability interface in §1/§9: a hierarchical tree of mappings,
sequences and scalars, each node carrying its 0-based source line mark).
`invalid` is the "zombie" node yaml-cpp returns from a failed lookup:
it is not defined, and subscripting it throws `InvalidNode`. -/
inductive YNode where
  | invalid
  | null (line : Int)
  | scalar (line : Int) (s : String)
  | ymap (line : Int) (entries : List (String × YNode))
  | yseq (line : Int) (items : List YNode)

/-- Predicate `Node::IsDefined()`: every node except the invalid/zombie node. -/
def YNode.isDefined : YNode → Bool
  | .invalid => false
  | _ => true

/-- Accessor `Node::Mark().line` (0-based; the invalid node has the null mark, -1). -/
def YNode.markLine : YNode → Int
  | .invalid => -1
  | .null l => l
  | .scalar l _ => l
  | .ymap l _ => l
  | .yseq l _ => l

/-- Exceptions of the external YAML library that the source interacts
with: `YAML::Exception` from `LoadFile` (message + mark), `BadConversion`
from `Node::as<T>()`, `InvalidNode` from subscripting a zombie node. -/
inductive YamlError where
  | parseError (msg : String) (line column : Int)
  | badConversion (line : Int)
  | invalidNode
deriving DecidableEq, Repr

/-- Message and mark a caught `YAML::Exception` exposes (`e.msg`,
`e.mark.line`, `e.mark.column`), as used in `YamlDatabase::load`. -/
def YamlError.msg : YamlError → String
  | .parseError m _ _ => m
  | .badConversion _ => "bad conversion"
  | .invalidNode => "invalid node"

def YamlError.line : YamlError → Int
  | .parseError _ l _ => l
  | .badConversion l => l
  | .invalidNode => -1

def YamlError.column : YamlError → Int
  | .parseError _ _ c => c
  | .badConversion _ => -1
  | .invalidNode => -1

/-- Subscript `node[name]` (yaml-cpp `Node::operator[]`, modelled from the spec's
lookup capability): subscripting the invalid node throws `InvalidNode`;
a mapping yields the value of the first matching key, or the invalid
(zombie) node when the key is absent; any other node yields the invalid
node. -/
def ylookup : YNode → String → Except YamlError YNode
  | .invalid, _ => .error .invalidNode
  | .ymap _ entries, name =>
    .ok (((entries.find? (fun e => e.1 = name)).map (fun e => e.2)).getD .invalid)
  | _, _ => .ok .invalid

/-- Subscript `node[name]` at a call site where the preceding `nodeExists` check has
already succeeded, so the `InvalidNode` branch is unreachable. -/
def getField (node : YNode) (name : String) : YNode :=
  match ylookup node name with
  | .ok v => v
  | .error _ => .invalid

/-- Embedding of `YamlDatabase::nodeExists` (database.cpp:8-18): `try { if(node[name])
return true else return false } catch(InvalidNode){ return false }`. -/
def nodeExists (node : YNode) (name : String) : Bool :=
  match ylookup node name with
  | .ok v => v.isDefined
  | .error _ => false

/-- Modelled from the spec: node-to-string conversion
(`Node::as<std::string>()`, an external capability per §1); succeeds
exactly on scalar nodes. -/
def convString : YNode → Option String
  | .scalar _ s => some s
  | _ => none

/-- Modelled from the spec: node-to-bool conversion (`Node::as<bool>()`,
external capability; the exact scalar grammar is the library's and is
irrelevant to the claims, which quantify over the conversion). -/
def convBool : YNode → Option Bool
  | .scalar _ s =>
    if s = "true" then some true else if s = "false" then some false else none
  | _ => none

/-- Modelled from the spec: the value of a decimal digit character
(external scalar grammar). -/
def digitVal (c : Char) : Option Nat :=
  if c.isDigit then some (c.toNat - 48) else none

/-- Modelled from the spec: accumulate a decimal digit string (external
scalar grammar). -/
def natDigitsAux : List Char → Nat → Option Nat
  | [], acc => some acc
  | c :: cs, acc =>
    match digitVal c with
    | some d => natDigitsAux cs (acc * 10 + d)
    | none => none

/-- Modelled from the spec: parse a non-empty decimal digit string
(external scalar grammar). -/
def strToNat (s : String) : Option Nat :=
  match s.data with
  | [] => none
  | cs => natDigitsAux cs 0

/-- Modelled from the spec: parse an optionally negated decimal digit
string (external scalar grammar). -/
def strToInt (s : String) : Option Int :=
  match s.data with
  | [] => none
  | c :: cs =>
    if c = '-' then
      if cs = [] then none
      else (natDigitsAux cs 0).map (fun n => -(n : Int))
    else
      (natDigitsAux (c :: cs) 0).map (fun n => (n : Int))

/-- Modelled from the spec: node-to-unsigned conversion with an exclusive
upper bound `2^w` (external capability). -/
def convUNat (bound : Nat) : YNode → Option Nat
  | .scalar _ s => (strToNat s).bind (fun n => if n < bound then some n else none)
  | _ => none

/-- Conversion `Node::as<uint16>()`. -/
def convUInt16 : YNode → Option Nat := convUNat 65536

/-- Conversion `Node::as<uint32>()`. -/
def convUInt32 : YNode → Option Nat := convUNat 4294967296

/-- Conversion `Node::as<uint64>()`. -/
def convUInt64 : YNode → Option Nat := convUNat 18446744073709551616

/-- Modelled from the spec: node-to-signed-integer conversion within an
inclusive range (external capability). -/
def convIntRange (lo hi : Int) : YNode → Option Int
  | .scalar _ s => (strToInt s).bind (fun i => if lo ≤ i ∧ i ≤ hi then some i else none)
  | _ => none

/-- Conversion `Node::as<int16>()`. -/
def convInt16 : YNode → Option Int := convIntRange (-32768) 32767

/-- Conversion `Node::as<int32>()`. -/
def convInt32 : YNode → Option Int := convIntRange (-2147483648) 2147483647

/-- Conversion `Node::as<int64>()`. -/
def convInt64 : YNode → Option Int := convIntRange (-9223372036854775808) 9223372036854775807

/-- Modelled from the spec: node-to-float conversion (external
capability; the numeric grammar is the library's — only the
success/failure plumbing matters to the claims). -/
def convFloat : YNode → Option Float
  | .scalar _ s => (strToNat s).map Nat.toFloat
  | _ => none

/-- Conversion `Node::as<double>()` (same coarse model as `convFloat`). -/
def convDouble : YNode → Option Float := convFloat

/-- Outcome of one typed-field extraction: the returned `bool`, what (if
anything) was written through the output pointer, and the diagnostics
emitted, in order. -/
structure ExtractResult (R : Type) where
  ret : Bool
  written : Option R
  diags : List Diag

/-- Embedding of `asType<R>` (database.cpp:123-156).  The template parameter `R` and
its `Node::as<R>()` instantiation become the conversion function `conv`;
the output pointer becomes `outNull` (whether `out == nullptr`) plus the
`written` field of the result; `defaultValue` is `none` for `nullptr`. -/
def asType {R : Type} (conv : YNode → Option R) (node : YNode) (name : String)
    (outNull : Bool) (defaultValue : Option R) : ExtractResult R :=
  if outNull then
    { ret := false, written := none, diags := [.noOutputPointer] }
  else if nodeExists node name then
    let dataNode := getField node name
    match conv dataNode with
    | some value =>
      { ret := true, written := some value, diags := [] }
    | none =>
      match defaultValue with
      | some d =>
        { ret := true, written := some d,
          diags := [.parseDefault name (dataNode.markLine + 1)] }
      | none =>
        { ret := false, written := none,
          diags := [.unableParse name (dataNode.markLine + 1)] }
  else
    match defaultValue with
    | some d => { ret := true, written := some d, diags := [] }
    | none =>
      { ret := false, written := none,
        diags := [.missingNode name (node.markLine + 1)] }

/-- Embedding of `YamlDatabase::asBool` (no default overload). -/
def asBool (node : YNode) (name : String) (outNull : Bool) : ExtractResult Bool :=
  asType convBool node name outNull none

/-- Embedding of `YamlDatabase::asBool` (default-value overload). -/
def asBoolDefault (node : YNode) (name : String) (outNull : Bool) (d : Bool) : ExtractResult Bool :=
  asType convBool node name outNull (some d)

/-- Embedding of `YamlDatabase::asInt16` (no default overload). -/
def asInt16 (node : YNode) (name : String) (outNull : Bool) : ExtractResult Int :=
  asType convInt16 node name outNull none

/-- Embedding of `YamlDatabase::asInt16` (default-value overload). -/
def asInt16Default (node : YNode) (name : String) (outNull : Bool) (d : Int) : ExtractResult Int :=
  asType convInt16 node name outNull (some d)

/-- Embedding of `YamlDatabase::asUInt16` (no default overload). -/
def asUInt16 (node : YNode) (name : String) (outNull : Bool) : ExtractResult Nat :=
  asType convUInt16 node name outNull none

/-- Embedding of `YamlDatabase::asUInt16` (default-value overload). -/
def asUInt16Default (node : YNode) (name : String) (outNull : Bool) (d : Nat) : ExtractResult Nat :=
  asType convUInt16 node name outNull (some d)

/-- Embedding of `YamlDatabase::asInt32` (no default overload). -/
def asInt32 (node : YNode) (name : String) (outNull : Bool) : ExtractResult Int :=
  asType convInt32 node name outNull none

/-- Embedding of `YamlDatabase::asInt32` (default-value overload). -/
def asInt32Default (node : YNode) (name : String) (outNull : Bool) (d : Int) : ExtractResult Int :=
  asType convInt32 node name outNull (some d)

/-- Embedding of `YamlDatabase::asUInt32` (no default overload). -/
def asUInt32 (node : YNode) (name : String) (outNull : Bool) : ExtractResult Nat :=
  asType convUInt32 node name outNull none

/-- Embedding of `YamlDatabase::asUInt32` (default-value overload). -/
def asUInt32Default (node : YNode) (name : String) (outNull : Bool) (d : Nat) : ExtractResult Nat :=
  asType convUInt32 node name outNull (some d)

/-- Embedding of `YamlDatabase::asInt64` (no default overload). -/
def asInt64 (node : YNode) (name : String) (outNull : Bool) : ExtractResult Int :=
  asType convInt64 node name outNull none

/-- Embedding of `YamlDatabase::asInt64` (default-value overload). -/
def asInt64Default (node : YNode) (name : String) (outNull : Bool) (d : Int) : ExtractResult Int :=
  asType convInt64 node name outNull (some d)

/-- Embedding of `YamlDatabase::asUInt64` (no default overload). -/
def asUInt64 (node : YNode) (name : String) (outNull : Bool) : ExtractResult Nat :=
  asType convUInt64 node name outNull none

/-- Embedding of `YamlDatabase::asUInt64` (default-value overload). -/
def asUInt64Default (node : YNode) (name : String) (outNull : Bool) (d : Nat) : ExtractResult Nat :=
  asType convUInt64 node name outNull (some d)

/-- Embedding of `YamlDatabase::asFloat` (no default overload). -/
def asFloat (node : YNode) (name : String) (outNull : Bool) : ExtractResult Float :=
  asType convFloat node name outNull none

/-- Embedding of `YamlDatabase::asFloat` (default-value overload). -/
def asFloatDefault (node : YNode) (name : String) (outNull : Bool) (d : Float) : ExtractResult Float :=
  asType convFloat node name outNull (some d)

/-- Embedding of `YamlDatabase::asDouble` (no default overload). -/
def asDouble (node : YNode) (name : String) (outNull : Bool) : ExtractResult Float :=
  asType convDouble node name outNull none

/-- Embedding of `YamlDatabase::asDouble` (default-value overload). -/
def asDoubleDefault (node : YNode) (name : String) (outNull : Bool) (d : Float) : ExtractResult Float :=
  asType convDouble node name outNull (some d)

/-- Embedding of `YamlDatabase::asString` (no default overload). -/
def asString (node : YNode) (name : String) (outNull : Bool) : ExtractResult String :=
  asType convString node name outNull none

/-- Embedding of `YamlDatabase::asString` (default-value overload). -/
def asStringDefault (node : YNode) (name : String) (outNull : Bool) (d : String) : ExtractResult String :=
  asType convString node name outNull (some d)

/-- State of a `YamlDatabase` instance: the per-table identity (`type`,
`version`, `minimumVersion`, all set at construction and never mutated by
this file's code) and the mutable current root document. -/
structure YamlDatabase where
  type : String
  version : Nat
  minimumVersion : Nat
  root : YNode

/-- Embedding of `YamlDatabase::getRootNode` (database.cpp:85-87). -/
def getRootNode (db : YamlDatabase) : YNode :=
  db.root

/-- Embedding of `YamlDatabase::verifyCompatibility` (database.cpp:20-61).  Returns the
C++ return value together with the diagnostics emitted, in order; the one
statement that can throw out of the function (`typeNode.as<std::string>()`,
line 34, not wrapped in any try block) is modelled by the `Except` error
case.  The lookups of `Header` and `Type` are guarded by the preceding
`nodeExists` checks, hence `getField`. -/
def verifyCompatibility (db : YamlDatabase) (rootNode : YNode) :
    Except YamlError (Bool × List Diag) :=
  if nodeExists rootNode "Header" = false then
    .ok (false, [.noHeader])
  else
    let headerNode := getField rootNode "Header"
    if nodeExists headerNode "Type" = false then
      .ok (false, [.noType])
    else
      let typeNode := getField headerNode "Type"
      match convString typeNode with
      | none => .error (.badConversion typeNode.markLine)
      | some tmpType =>
        if tmpType ≠ db.type then
          .ok (false, [.typeMismatch db.type tmpType])
        else
          let r := asUInt16 headerNode "Version" false
          if r.ret = false then
            .ok (false, r.diags ++ [.invalidVersionType db.type])
          else
            let tmpVersion := r.written.getD 0
            if tmpVersion ≠ db.version then
              if tmpVersion > db.version then
                .ok (false, r.diags ++ [.versionTooNew tmpVersion db.version])
              else if tmpVersion ≥ db.minimumVersion then
                .ok (true, r.diags ++ [.versionOutdated tmpVersion db.minimumVersion])
              else
                .ok (false, r.diags ++ [.versionTooOld tmpVersion db.minimumVersion])
            else
              .ok (true, r.diags)

/-- Embedding of `YamlDatabase::load` (database.cpp:63-83).  The filesystem plus
`YAML::LoadFile` are modelled by `fs : String → Except YamlError YNode`
(an exception thrown by `LoadFile` is caught — the try block covers only
line 67); an exception escaping `verifyCompatibility` is NOT caught and
propagates.  Returns the C++ return value, the updated instance, and the
diagnostics emitted, in order. -/
def load (db : YamlDatabase) (fs : String → Except YamlError YNode) (path : String) :
    Except YamlError (Bool × YamlDatabase × List Diag) :=
  match fs path with
  | .error e =>
    .ok (false, db, [.failedRead db.type path, .excDetail e.msg e.line e.column])
  | .ok rootNode =>
    match verifyCompatibility db rootNode with
    | .error e => .error e
    | .ok (ok, ds) =>
      if ok = false then
        .ok (false, db, ds ++ [.failedCompat db.type path])
      else
        .ok (true, { db with root := rootNode }, ds)

/-- The process-wide path configuration the source reads through the
globals/macros `db_path`, `conf_path`, `DBPATH` and `DBIMPORT` (defined
outside this translation unit; the spec's §9 models them as an explicit
configuration value). -/
structure PathConfig where
  db_path : String
  conf_path : String
  dbpath : String
  dbimport : String

/-- Enumerator of `e_yamldb_location`: enumerator `NORMAL_DB` (a C++ enum is an integer;
values other than the three enumerators model an unrecognized category). -/
def NORMAL_DB : Nat := 0

/-- Enumerator of `e_yamldb_location`: enumerator `SPLIT_DB`. -/
def SPLIT_DB : Nat := 1

/-- Enumerator of `e_yamldb_location`: enumerator `CONF_DB`. -/
def CONF_DB : Nat := 2

/-- Embedding of `YamlDatabase::getLocations` (database.cpp:109-121): the switch over
the location category, falling through to the empty list for any value
that is none of the three enumerators. -/
def getLocations (cfg : PathConfig) (filename : String) (location : Nat) : List String :=
  if location = NORMAL_DB then
    [cfg.db_path ++ "/" ++ filename,
     cfg.db_path ++ "/" ++ cfg.dbimport ++ "/" ++ filename]
  else if location = SPLIT_DB then
    [cfg.db_path ++ "/" ++ cfg.dbpath ++ filename,
     cfg.db_path ++ "/" ++ cfg.dbimport ++ "/" ++ filename]
  else if location = CONF_DB then
    [cfg.conf_path ++ "/" ++ filename,
     cfg.conf_path ++ "/import/" ++ filename]
  else
    []

/-- Observable calls `parse` makes: one `loadCall` per invocation of
`load`, one `funcCall` per invocation of the entry callback. -/
inductive Event where
  | loadCall (path : String)
  | funcCall (entry : YNode) (path : String)

/-- The path of a `loadCall` event. -/
def Event.loadPath : Event → Option String
  | .loadCall p => some p
  | .funcCall _ _ => none

/-- Iterating a node with a range-for (`for (const auto &node : ...)`):
a sequence yields its items; iterating a mapping yields one value per
entry whose `Node` part is not a defined entry node; any other node
(including the zombie node) yields the empty range. -/
def yiterItems : YNode → List YNode
  | .yseq _ items => items
  | .ymap _ entries => entries.map (fun _ => YNode.invalid)
  | _ => []

/-- The loop body of `YamlDatabase::parse` over the resolved location
list (database.cpp:92-104 plus the final `return true`), with the
callback modelled as a pure function.  Returns the C++ return value, the
final instance state, the diagnostics, and the trace of `load`/callback
invocations, all in order. -/
def parseFiles (db : YamlDatabase) (fs : String → Except YamlError YNode)
    (func : YNode → String → Bool) :
    List String → Except YamlError (Bool × YamlDatabase × List Diag × List Event)
  | [] => .ok (true, db, [], [])
  | path :: rest =>
    match load db fs path with
    | .error e => .error e
    | .ok (false, db1, ds) => .ok (false, db1, ds, [.loadCall path])
    | .ok (true, db1, ds) =>
      match ylookup (getRootNode db1) "Body" with
      | .error _ => .error .invalidNode
      | .ok bodyNode =>
        let processed := (yiterItems bodyNode).filter (fun n => n.isDefined)
        let count := (processed.filter (fun n => func n path)).length
        let evs := Event.loadCall path :: processed.map (fun n => Event.funcCall n path)
        match parseFiles db1 fs func rest with
        | .error e => .error e
        | .ok (b, db2, ds2, evs2) =>
          .ok (b, db2, ds ++ [.doneReading count path] ++ ds2, evs ++ evs2)

/-- Embedding of `YamlDatabase::parse` (database.cpp:89-107): resolve the location
list, then run the fail-fast per-file loop. -/
def parse (db : YamlDatabase) (cfg : PathConfig) (fs : String → Except YamlError YNode)
    (func : YNode → String → Bool) (filename : String) (location : Nat) :
    Except YamlError (Bool × YamlDatabase × List Diag × List Event) :=
  parseFiles db fs func (getLocations cfg filename location)

/-- The caller-observable outcome of one `load` call: the returned bool
and the diagnostics, with the updated instance state projected away.
Because `verifyCompatibility` never reads the current root, this outcome
is independent of the instance's root (proved below), which lets
hypotheses about a sequence of loads be stated against the initial
state. -/
def loadOutcome (db : YamlDatabase) (fs : String → Except YamlError YNode) (path : String) :
    Except YamlError (Bool × List Diag) :=
  (load db fs path).map (fun x => (x.1, x.2.2))

/-- The document a successful `LoadFile` on `path` produces. -/
def loadedNode (fs : String → Except YamlError YNode) (path : String) : YNode :=
  match fs path with
  | .ok n => n
  | .error _ => .invalid

/-- The per-file entry count `parse` reports for `path`: the defined
nodes of the file's `Body` sequence on which the callback returned
true. -/
def entryCount (fs : String → Except YamlError YNode) (func : YNode → String → Bool)
    (path : String) : Nat :=
  (((yiterItems (getField (loadedNode fs path) "Body")).filter
      (fun n => n.isDefined)).filter (fun n => func n path)).length

/-!  Concrete fixtures used by the witness theorems. -/

/-- A well-formed document: matching header and a body with two defined
entries and one undefined hole. -/
def goodRootW : YNode :=
  .ymap 0 [("Header", .ymap 1 [("Type", .scalar 1 "ItemDb"), ("Version", .scalar 2 "3")]),
           ("Body", .yseq 3 [.scalar 4 "a", .invalid, .scalar 5 "b"])]

/-- A well-formed document at the outdated-but-supported version 2. -/
def oldRootW : YNode :=
  .ymap 0 [("Header", .ymap 1 [("Type", .scalar 1 "ItemDb"), ("Version", .scalar 2 "2")])]

/-- A dataset instance at version 3 with minimum supported version 2. -/
def db0w : YamlDatabase :=
  { type := "ItemDb", version := 3, minimumVersion := 2, root := .invalid }

/-- Path configuration fixture. -/
def cfg0w : PathConfig :=
  { db_path := "db", conf_path := "conf", dbpath := "re/", dbimport := "import" }

/-- A filesystem with a good base file and a missing import overlay. -/
def fsW : String → Except YamlError YNode := fun p =>
  if p = "db/item_db.yml" then .ok goodRootW
  else .error (.parseError "bad file" 0 0)

/-- A filesystem on which every path parses to the good document. -/
def fsG : String → Except YamlError YNode := fun _ => .ok goodRootW

/-!  ## Theorems -/

/-- C8: `nodeExists` is total: when the underlying subscript lookup
throws (`InvalidNode` on a malformed/absent node), it reports `false`
rather than propagating the failure, and it reports `true` exactly when
the lookup returns a defined node. -/
theorem nodeExists_total_on_failure (node : YNode) (name : String) :
    (∀ e, ylookup node name = .error e → nodeExists node name = false) ∧
    (nodeExists node name = true ↔ ∃ v, ylookup node name = .ok v ∧ v.isDefined = true) := by
  constructor
  · intro e he
    simp [nodeExists, he]
  · unfold nodeExists
    cases h : ylookup node name with
    | ok v => simp
    | error e => simp

/-- Witness for C8: the zombie node makes the lookup throw, and the
presence check reports `false` there. -/
theorem nodeExists_total_on_failure_witness :
    nodeExists YNode.invalid "Header" = false :=
  (nodeExists_total_on_failure YNode.invalid "Header").1 YamlError.invalidNode rfl

/-- C3: Typed accessor on an absent field: with a default `d` it
succeeds, writes `d`, and emits no diagnostic; without a default it fails
and emits the missing-field error citing the containing node's 1-based
line (its 0-based mark plus one). -/
theorem asType_absent_field {R : Type} (conv : YNode → Option R) (node : YNode)
    (name : String) (h : nodeExists node name = false) :
    (∀ d : R, asType conv node name false (some d) =
      { ret := true, written := some d, diags := [] }) ∧
    asType conv node name false none =
      { ret := false, written := none,
        diags := [Diag.missingNode name (node.markLine + 1)] } ∧
    (Diag.missingNode name (node.markLine + 1)).severity = Severity.error := by
  refine ⟨?_, ?_, rfl⟩
  · intro d
    simp [asType, h]
  · simp [asType, h]

/-- Witness for C3 at a concrete node with no `Foo` field, through the
`asBool` entry points. -/
theorem asType_absent_field_witness :
    nodeExists (YNode.ymap 4 [("Bar", YNode.scalar 5 "1")]) "Foo" = false ∧
    asBoolDefault (YNode.ymap 4 [("Bar", YNode.scalar 5 "1")]) "Foo" false true =
      { ret := true, written := some true, diags := [] } ∧
    asBool (YNode.ymap 4 [("Bar", YNode.scalar 5 "1")]) "Foo" false =
      { ret := false, written := none, diags := [Diag.missingNode "Foo" 5] } :=
  ⟨by decide,
   (asType_absent_field convBool (YNode.ymap 4 [("Bar", YNode.scalar 5 "1")]) "Foo"
      (by decide)).1 true,
   (asType_absent_field convBool (YNode.ymap 4 [("Bar", YNode.scalar 5 "1")]) "Foo"
      (by decide)).2.1⟩

/-- C4: Typed accessor on a present but unconvertible field: with a
default it succeeds, writes the default, and emits exactly one warning
naming the field and the field node's 1-based line; without a default it
fails with the error diagnostic citing the field node's line. -/
theorem asType_unconvertible_field {R : Type} (conv : YNode → Option R) (node : YNode)
    (name : String) (h1 : nodeExists node name = true)
    (h2 : conv (getField node name) = none) :
    (∀ d : R, asType conv node name false (some d) =
      { ret := true, written := some d,
        diags := [Diag.parseDefault name ((getField node name).markLine + 1)] }) ∧
    ((List.filter (fun x => x.severity = Severity.warning)
        [Diag.parseDefault name ((getField node name).markLine + 1)]).length = 1) ∧
    asType conv node name false none =
      { ret := false, written := none,
        diags := [Diag.unableParse name ((getField node name).markLine + 1)] } ∧
    (Diag.unableParse name ((getField node name).markLine + 1)).severity = Severity.error := by
  refine ⟨?_, ?_, ?_, rfl⟩
  · intro d
    simp [asType, h1, h2]
  · simp [Diag.severity]
  · simp [asType, h1, h2]

/-- Witness for C4 at a concrete node whose `Foo` field is a mapping, so
boolean conversion fails, through the `asBool` entry points. -/
theorem asType_unconvertible_field_witness :
    nodeExists (YNode.ymap 4 [("Foo", YNode.ymap 7 [])]) "Foo" = true ∧
    convBool (getField (YNode.ymap 4 [("Foo", YNode.ymap 7 [])]) "Foo") = none ∧
    asBoolDefault (YNode.ymap 4 [("Foo", YNode.ymap 7 [])]) "Foo" false false =
      { ret := true, written := some false, diags := [Diag.parseDefault "Foo" 8] } ∧
    asBool (YNode.ymap 4 [("Foo", YNode.ymap 7 [])]) "Foo" false =
      { ret := false, written := none, diags := [Diag.unableParse "Foo" 8] } :=
  ⟨by decide, by decide,
   (asType_unconvertible_field convBool (YNode.ymap 4 [("Foo", YNode.ymap 7 [])]) "Foo"
      (by decide) (by decide)).1 false,
   (asType_unconvertible_field convBool (YNode.ymap 4 [("Foo", YNode.ymap 7 [])]) "Foo"
      (by decide) (by decide)).2.2.1⟩

/-- The generic frame property behind C10, shared by all typed accessors:
with a non-null output pointer, something is written through the pointer
exactly when the accessor returns true. -/
theorem asType_written_eq_ret {R : Type} (conv : YNode → Option R) (node : YNode)
    (name : String) (dflt : Option R) :
    (asType conv node name false dflt).ret = (asType conv node name false dflt).written.isSome := by
  unfold asType
  simp only [Bool.false_eq_true, if_false]
  split
  · split
    · rfl
    · split
      · rfl
      · rfl
  · split
    · rfl
    · rfl

/-- C10: For every node, field name and non-null output pointer, every
typed accessor (`asBool`/`asInt16`/`asUInt16`/`asInt32`/`asUInt32`/
`asInt64`/`asUInt64`/`asFloat`/`asDouble`/`asString`, in both overloads,
and the underlying `asType` for any conversion) writes through the output
pointer exactly when it returns true: a false return never writes. -/
theorem accessors_write_iff_ret :
    (∀ (R : Type) (conv : YNode → Option R) (node : YNode) (name : String) (dflt : Option R),
      (asType conv node name false dflt).ret = (asType conv node name false dflt).written.isSome) ∧
    (∀ node name, (asBool node name false).ret = (asBool node name false).written.isSome) ∧
    (∀ node name d, (asBoolDefault node name false d).ret =
      (asBoolDefault node name false d).written.isSome) ∧
    (∀ node name, (asInt16 node name false).ret = (asInt16 node name false).written.isSome) ∧
    (∀ node name d, (asInt16Default node name false d).ret =
      (asInt16Default node name false d).written.isSome) ∧
    (∀ node name, (asUInt16 node name false).ret = (asUInt16 node name false).written.isSome) ∧
    (∀ node name d, (asUInt16Default node name false d).ret =
      (asUInt16Default node name false d).written.isSome) ∧
    (∀ node name, (asInt32 node name false).ret = (asInt32 node name false).written.isSome) ∧
    (∀ node name d, (asInt32Default node name false d).ret =
      (asInt32Default node name false d).written.isSome) ∧
    (∀ node name, (asUInt32 node name false).ret = (asUInt32 node name false).written.isSome) ∧
    (∀ node name d, (asUInt32Default node name false d).ret =
      (asUInt32Default node name false d).written.isSome) ∧
    (∀ node name, (asInt64 node name false).ret = (asInt64 node name false).written.isSome) ∧
    (∀ node name d, (asInt64Default node name false d).ret =
      (asInt64Default node name false d).written.isSome) ∧
    (∀ node name, (asUInt64 node name false).ret = (asUInt64 node name false).written.isSome) ∧
    (∀ node name d, (asUInt64Default node name false d).ret =
      (asUInt64Default node name false d).written.isSome) ∧
    (∀ node name, (asFloat node name false).ret = (asFloat node name false).written.isSome) ∧
    (∀ node name d, (asFloatDefault node name false d).ret =
      (asFloatDefault node name false d).written.isSome) ∧
    (∀ node name, (asDouble node name false).ret = (asDouble node name false).written.isSome) ∧
    (∀ node name d, (asDoubleDefault node name false d).ret =
      (asDoubleDefault node name false d).written.isSome) ∧
    (∀ node name, (asString node name false).ret = (asString node name false).written.isSome) ∧
    (∀ node name d, (asStringDefault node name false d).ret =
      (asStringDefault node name false d).written.isSome) :=
  ⟨fun _ conv node name dflt => asType_written_eq_ret conv node name dflt,
   fun n m => asType_written_eq_ret convBool n m none,
   fun n m d => asType_written_eq_ret convBool n m (some d),
   fun n m => asType_written_eq_ret convInt16 n m none,
   fun n m d => asType_written_eq_ret convInt16 n m (some d),
   fun n m => asType_written_eq_ret convUInt16 n m none,
   fun n m d => asType_written_eq_ret convUInt16 n m (some d),
   fun n m => asType_written_eq_ret convInt32 n m none,
   fun n m d => asType_written_eq_ret convInt32 n m (some d),
   fun n m => asType_written_eq_ret convUInt32 n m none,
   fun n m d => asType_written_eq_ret convUInt32 n m (some d),
   fun n m => asType_written_eq_ret convInt64 n m none,
   fun n m d => asType_written_eq_ret convInt64 n m (some d),
   fun n m => asType_written_eq_ret convUInt64 n m none,
   fun n m d => asType_written_eq_ret convUInt64 n m (some d),
   fun n m => asType_written_eq_ret convFloat n m none,
   fun n m d => asType_written_eq_ret convFloat n m (some d),
   fun n m => asType_written_eq_ret convDouble n m none,
   fun n m d => asType_written_eq_ret convDouble n m (some d),
   fun n m => asType_written_eq_ret convString n m none,
   fun n m d => asType_written_eq_ret convString n m (some d)⟩

/-- C6: The location resolver is a pure function of the name, the
category and the path configuration, returning exactly two paths in
base-before-import order for each recognized category, and the empty list
for an unrecognized one. -/
theorem getLocations_resolution (cfg : PathConfig) (name : String) (location : Nat) :
    getLocations cfg name NORMAL_DB =
      [cfg.db_path ++ "/" ++ name,
       cfg.db_path ++ "/" ++ cfg.dbimport ++ "/" ++ name] ∧
    getLocations cfg name SPLIT_DB =
      [cfg.db_path ++ "/" ++ cfg.dbpath ++ name,
       cfg.db_path ++ "/" ++ cfg.dbimport ++ "/" ++ name] ∧
    getLocations cfg name CONF_DB =
      [cfg.conf_path ++ "/" ++ name,
       cfg.conf_path ++ "/import/" ++ name] ∧
    (location ≠ NORMAL_DB → location ≠ SPLIT_DB → location ≠ CONF_DB →
      getLocations cfg name location = []) := by
  refine ⟨rfl, rfl, rfl, ?_⟩
  intro h0 h1 h2
  simp [getLocations, h0, h1, h2]

/-- Witness for C6 at the fixture configuration, including the
unrecognized category 7. -/
theorem getLocations_resolution_witness :
    getLocations cfg0w "item_db.yml" NORMAL_DB = ["db/item_db.yml", "db/import/item_db.yml"] ∧
    getLocations cfg0w "item_db.yml" 7 = [] :=
  ⟨(getLocations_resolution cfg0w "item_db.yml" 7).1,
   (getLocations_resolution cfg0w "item_db.yml" 7).2.2.2
     (by decide) (by decide) (by decide)⟩

/-- C1: The version protocol of `verifyCompatibility`: for a document
whose header type matches and whose `Version` field converts to the
uint16 value `v` — given the protocol's total-order premise
`minimumVersion ≤ version` (without which the claim's third and fourth
cases contradict each other at `v = version < minimumVersion`) —
a newer file version is rejected, an outdated-but-supported one is
accepted with exactly the one outdated-version warning, one below the
minimum is rejected, and an equal one is accepted with no diagnostics. -/
theorem verifyCompatibility_version_protocol
    (db : YamlDatabase) (rootNode : YNode) (v : Nat)
    (hmv : db.minimumVersion ≤ db.version)
    (hH : nodeExists rootNode "Header" = true)
    (hT : nodeExists (getField rootNode "Header") "Type" = true)
    (hTy : convString (getField (getField rootNode "Header") "Type") = some db.type)
    (hV : nodeExists (getField rootNode "Header") "Version" = true)
    (hVc : convUInt16 (getField (getField rootNode "Header") "Version") = some v) :
    (db.version < v →
      verifyCompatibility db rootNode = .ok (false, [Diag.versionTooNew v db.version])) ∧
    (db.minimumVersion ≤ v → v < db.version →
      verifyCompatibility db rootNode = .ok (true, [Diag.versionOutdated v db.minimumVersion]) ∧
      (Diag.versionOutdated v db.minimumVersion).severity = Severity.warning) ∧
    (v < db.minimumVersion →
      verifyCompatibility db rootNode = .ok (false, [Diag.versionTooOld v db.minimumVersion])) ∧
    (v = db.version →
      verifyCompatibility db rootNode = .ok (true, [])) := by
  have hA : asUInt16 (getField rootNode "Header") "Version" false =
      { ret := true, written := some v, diags := [] } := by
    simp [asUInt16, asType, hV, hVc]
  refine ⟨?_, ?_, ?_, ?_⟩
  · intro h
    have h1 : v ≠ db.version := by omega
    simp [verifyCompatibility, hH, hT, hTy, hA, h1, h]
  · intro hge hlt
    have h1 : v ≠ db.version := by omega
    have h2 : ¬ v > db.version := by omega
    refine ⟨?_, rfl⟩
    simp [verifyCompatibility, hH, hT, hTy, hA, h1, h2, hge]
  · intro h
    have h1 : v ≠ db.version := by omega
    have h2 : ¬ v > db.version := by omega
    have h3 : ¬ v ≥ db.minimumVersion := by omega
    simp [verifyCompatibility, hH, hT, hTy, hA, h1, h2, h3]
  · intro h
    simp [verifyCompatibility, hH, hT, hTy, hA, h]

/-- Witness for C1: the version-2 fixture against the version-3 dataset
with minimum 2 is accepted with exactly the outdated-version warning. -/
theorem verifyCompatibility_version_protocol_witness :
    verifyCompatibility db0w oldRootW =
      .ok (true, [Diag.versionOutdated 2 2]) ∧
    (Diag.versionOutdated 2 2).severity = Severity.warning :=
  (verifyCompatibility_version_protocol db0w oldRootW 2
    (by decide) (by decide) (by decide) (by decide) (by decide) (by decide)).2.1
    (by decide) (by decide)

/-- The compatibility check never reads the instance's current root. -/
theorem verifyCompatibility_root_irrelevant (t : String) (ver minv : Nat) (r r2 n : YNode) :
    verifyCompatibility ⟨t, ver, minv, r⟩ n = verifyCompatibility ⟨t, ver, minv, r2⟩ n :=
  rfl

/-- The observable outcome of `load` is independent of the current root:
only the immutable dataset identity and the filesystem matter. -/
theorem loadOutcome_root_update (db : YamlDatabase) (r : YNode)
    (fs : String → Except YamlError YNode) (path : String) :
    loadOutcome { db with root := r } fs path = loadOutcome db fs path := by
  obtain ⟨t, ver, minv, rt⟩ := db
  unfold loadOutcome load
  cases hfs : fs path with
  | error e => rfl
  | ok n =>
    cases hv : verifyCompatibility ⟨t, ver, minv, rt⟩ n with
    | error e =>
      have hv2 : verifyCompatibility ⟨t, ver, minv, r⟩ n = .error e :=
        (verifyCompatibility_root_irrelevant t ver minv r rt n).trans hv
      simp [hv, hv2]
    | ok pr =>
      have hv2 : verifyCompatibility ⟨t, ver, minv, r⟩ n = .ok pr :=
        (verifyCompatibility_root_irrelevant t ver minv r rt n).trans hv
      simp only [hv, hv2]
      split <;> rfl

/-- Inversion of a successful `load`: the file parsed and the
compatibility check passed, and the updated state is exactly the old one
with the freshly parsed document as root. -/
theorem load_success_shape (db : YamlDatabase) (fs : String → Except YamlError YNode)
    (path : String) (db2 : YamlDatabase) (ds : List Diag)
    (h : load db fs path = .ok (true, db2, ds)) :
    ∃ n, fs path = .ok n ∧ verifyCompatibility db n = .ok (true, ds) ∧
      db2 = { db with root := n } := by
  unfold load at h
  split at h
  · simp at h
  · rename_i n heq
    split at h
    · simp at h
    · rename_i okb vds hv
      split at h
      · simp at h
      · rename_i hok
        simp only [Except.ok.injEq, Prod.mk.injEq, true_and] at h
        obtain ⟨hdb, hds⟩ := h
        refine ⟨n, heq, ?_, hdb.symm⟩
        have hok2 : okb = true := by
          cases okb
          · exact absurd rfl hok
          · rfl
        rw [hv, hok2, hds]

/-- Inversion of `loadOutcome` back to `load`. -/
theorem loadOutcome_inv (db : YamlDatabase) (fs : String → Except YamlError YNode)
    (path : String) (b : Bool) (ds : List Diag)
    (h : loadOutcome db fs path = .ok (b, ds)) :
    ∃ db1, load db fs path = .ok (b, db1, ds) := by
  unfold loadOutcome at h
  cases hl : load db fs path with
  | error e => rw [hl] at h; simp [Except.map] at h
  | ok x =>
    rw [hl] at h
    obtain ⟨b1, db1, ds1⟩ := x
    simp [Except.map] at h
    exact ⟨db1, by rw [h.1, h.2]⟩

/-- A document that passes the compatibility check is not the zombie
node, so subscripting it with `Body` cannot throw. -/
theorem verify_true_body_lookup (db : YamlDatabase) (n : YNode) (ds : List Diag)
    (h : verifyCompatibility db n = .ok (true, ds)) :
    ∃ bv, ylookup n "Body" = .ok bv := by
  cases n with
  | invalid => simp [verifyCompatibility, nodeExists, ylookup, YNode.isDefined] at h
  | null l => exact ⟨.invalid, rfl⟩
  | scalar l s => exact ⟨.invalid, rfl⟩
  | ymap l es => exact ⟨_, rfl⟩
  | yseq l its => exact ⟨.invalid, rfl⟩

/-- C9: whenever `load` returns false — parse failure or failed
compatibility check — the stored current root is unchanged; the root is
replaced (with the freshly parsed document) only on the success path,
after both the parse and the compatibility verification succeeded. -/
theorem load_replaces_root_only_on_success
    (db : YamlDatabase) (fs : String → Except YamlError YNode) (path : String)
    (b : Bool) (db2 : YamlDatabase) (ds : List Diag)
    (h : load db fs path = .ok (b, db2, ds)) :
    (b = false → db2 = db) ∧
    (b = true → ∃ n vds, fs path = .ok n ∧ verifyCompatibility db n = .ok (true, vds) ∧
      db2 = { db with root := n }) := by
  constructor
  · intro hb
    subst hb
    unfold load at h
    split at h
    · simp at h
      exact h.1.symm
    · split at h
      · simp at h
      · split at h
        · simp at h
          exact h.1.symm
        · simp at h
  · intro hb
    subst hb
    obtain ⟨n, hfs, hv, hdb⟩ := load_success_shape db fs path db2 ds h
    exact ⟨n, ds, hfs, hv, hdb⟩

/-- Witness for C9: on the fixture filesystem the failing overlay load
leaves the instance untouched, and the successful base load passes
verification and installs the parsed document as the new root. -/
theorem load_replaces_root_only_on_success_witness :
    ({ db0w with root := goodRootW } = db0w → False) ∧
    (∃ n vds, fsG "db/item_db.yml" = Except.ok n ∧
      verifyCompatibility db0w n = Except.ok (true, vds) ∧
      { db0w with root := goodRootW } = { db0w with root := n }) :=
  ⟨fun h => by simp [db0w, goodRootW] at h,
   (load_replaces_root_only_on_success db0w fsG "db/item_db.yml" true
      { db0w with root := goodRootW } [] rfl).2 rfl⟩

/-- Unfolding `parseFiles` on the empty location list. -/
theorem parseFiles_nil (db : YamlDatabase) (fs : String → Except YamlError YNode)
    (func : YNode → String → Bool) :
    parseFiles db fs func [] = .ok (true, db, [], []) :=
  rfl

/-- Unfolding `parseFiles` when the head file fails to load: the loop
returns false at once, with only that one load in the trace. -/
theorem parseFiles_cons_loadFalse (db : YamlDatabase) (fs : String → Except YamlError YNode)
    (func : YNode → String → Bool) (path : String) (rest : List String)
    (db1 : YamlDatabase) (ds : List Diag)
    (h : load db fs path = .ok (false, db1, ds)) :
    parseFiles db fs func (path :: rest) = .ok (false, db1, ds, [.loadCall path]) := by
  unfold parseFiles
  rw [h]

/-- Unfolding `parseFiles` when the head file loads: the body is
iterated, the defined entries are handed to the callback and counted,
and the loop continues with the rest of the list. -/
theorem parseFiles_cons_loadTrue (db : YamlDatabase) (fs : String → Except YamlError YNode)
    (func : YNode → String → Bool) (path : String) (rest : List String)
    (db1 : YamlDatabase) (ds : List Diag) (bv : YNode)
    (h : load db fs path = .ok (true, db1, ds))
    (hb : ylookup (getRootNode db1) "Body" = .ok bv) :
    parseFiles db fs func (path :: rest) =
      match parseFiles db1 fs func rest with
      | .error e => .error e
      | .ok (b, db2, ds2, evs2) =>
        .ok (b, db2,
             ds ++ [Diag.doneReading
               ((((yiterItems bv).filter (fun n => n.isDefined)).filter
                  (fun n => func n path)).length) path] ++ ds2,
             (Event.loadCall path ::
               ((yiterItems bv).filter (fun n => n.isDefined)).map
                 (fun n => Event.funcCall n path)) ++ evs2) := by
  simp only [parseFiles]
  rw [h]
  dsimp only
  rw [hb]

/-- A constantly-`none` `filterMap` produces nothing. -/
theorem filterMap_none_list {α β : Type} (l : List α) :
    l.filterMap (fun _ => (none : Option β)) = [] := by
  induction l with
  | nil => rfl
  | cons a l ih => simp [List.filterMap_cons, ih]

/-- Fail-fast induction behind C2: if every load on the prefix succeeds
and the load on `p` fails, the loop returns false having loaded exactly
the prefix plus `p`, and having iterated entries only for prefix files. -/
theorem parseFiles_fail_fast_aux (fs : String → Except YamlError YNode)
    (func : YNode → String → Bool) (p : String) (rest : List String) (pre : List String) :
    ∀ db : YamlDatabase,
      (∀ q ∈ pre, ∃ ds, loadOutcome db fs q = .ok (true, ds)) →
      (∃ ds, loadOutcome db fs p = .ok (false, ds)) →
      ∃ db2 ds evs,
        parseFiles db fs func (pre ++ p :: rest) = .ok (false, db2, ds, evs) ∧
        evs.filterMap Event.loadPath = pre ++ [p] ∧
        (∀ n q, Event.funcCall n q ∈ evs → q ∈ pre) := by
  induction pre with
  | nil =>
    intro db _ hp
    obtain ⟨ds, hds⟩ := hp
    obtain ⟨db1, hl⟩ := loadOutcome_inv db fs p false ds hds
    refine ⟨db1, ds, [Event.loadCall p],
      parseFiles_cons_loadFalse db fs func p rest db1 ds hl, rfl, ?_⟩
    intro n q hmem
    rw [List.mem_singleton] at hmem
    exact absurd hmem (by simp)
  | cons q pre ih =>
    intro db hpre hp
    obtain ⟨dsq, hq⟩ := hpre q (List.mem_cons_self q pre)
    obtain ⟨db1, hl⟩ := loadOutcome_inv db fs q true dsq hq
    obtain ⟨n, hfs, hverify, hdb1⟩ := load_success_shape db fs q db1 dsq hl
    obtain ⟨bv, hbv⟩ := verify_true_body_lookup db n dsq hverify
    have hroot : getRootNode db1 = n := by rw [hdb1]; rfl
    have hb2 : ylookup (getRootNode db1) "Body" = .ok bv := by rw [hroot]; exact hbv
    have hpre1 : ∀ x ∈ pre, ∃ ds, loadOutcome db1 fs x = .ok (true, ds) := by
      intro x hx
      rw [hdb1, loadOutcome_root_update]
      exact hpre x (List.mem_cons_of_mem q hx)
    have hp1 : ∃ ds, loadOutcome db1 fs p = .ok (false, ds) := by
      rw [hdb1, loadOutcome_root_update]
      exact hp
    obtain ⟨db2, ds2, evs2, hrec, hpaths, hfunc⟩ := ih db1 hpre1 hp1
    refine ⟨db2,
      dsq ++ [Diag.doneReading
        ((((yiterItems bv).filter (fun n => n.isDefined)).filter
          (fun n => func n q)).length) q] ++ ds2,
      (Event.loadCall q ::
        ((yiterItems bv).filter (fun n => n.isDefined)).map
          (fun n => Event.funcCall n q)) ++ evs2, ?_, ?_, ?_⟩
    · rw [List.cons_append,
        parseFiles_cons_loadTrue db fs func q (pre ++ p :: rest) db1 dsq bv hl hb2, hrec]
    · rw [List.cons_append, List.filterMap_cons, List.filterMap_append,
        List.filterMap_map]
      have hnone : (((yiterItems bv).filter (fun n => n.isDefined)).filterMap
          (Event.loadPath ∘ fun n => Event.funcCall n q)) = [] :=
        filterMap_none_list _
      simp only [Event.loadPath] at hnone ⊢
      rw [hnone, hpaths]
      rfl
    · intro nn qq hmem
      rcases List.mem_append.mp hmem with hmem1 | hmem2
      · rcases List.mem_cons.mp hmem1 with heq | hmem3
        · exact absurd heq (by simp)
        · obtain ⟨x, _, hxeq⟩ := List.mem_map.mp hmem3
          injection hxeq with h1 h2
          rw [← h2]
          exact List.mem_cons_self q pre
      · exact List.mem_cons_of_mem q (hfunc nn qq hmem2)

/-- All-success induction behind C5: once every load on the list
succeeds, the loop returns true, loads each file in order, hands only
defined body entries to the callback, and reports per file the count of
entries on which the callback returned true. -/
theorem parseFiles_success_aux (fs : String → Except YamlError YNode)
    (func : YNode → String → Bool) (l : List String) :
    ∀ db : YamlDatabase,
      (∀ q ∈ l, ∃ ds, loadOutcome db fs q = .ok (true, ds)) →
      ∃ db2 ds evs,
        parseFiles db fs func l = .ok (true, db2, ds, evs) ∧
        evs.filterMap Event.loadPath = l ∧
        (∀ n q, Event.funcCall n q ∈ evs → n.isDefined = true ∧ q ∈ l) ∧
        (∀ q ∈ l, Diag.doneReading (entryCount fs func q) q ∈ ds) := by
  induction l with
  | nil =>
    intro db _
    exact ⟨db, [], [], rfl, rfl, by simp, by simp⟩
  | cons q rest ih =>
    intro db hall
    obtain ⟨dsq, hq⟩ := hall q (List.mem_cons_self q rest)
    obtain ⟨db1, hl⟩ := loadOutcome_inv db fs q true dsq hq
    obtain ⟨n, hfs, hverify, hdb1⟩ := load_success_shape db fs q db1 dsq hl
    obtain ⟨bv, hbv⟩ := verify_true_body_lookup db n dsq hverify
    have hroot : getRootNode db1 = n := by rw [hdb1]; rfl
    have hb2 : ylookup (getRootNode db1) "Body" = .ok bv := by rw [hroot]; exact hbv
    have hall1 : ∀ x ∈ rest, ∃ ds, loadOutcome db1 fs x = .ok (true, ds) := by
      intro x hx
      rw [hdb1, loadOutcome_root_update]
      exact hall x (List.mem_cons_of_mem q hx)
    obtain ⟨db2, ds2, evs2, hrec, hpaths, hfunc, hdone⟩ := ih db1 hall1
    have hcount : entryCount fs func q =
        (((yiterItems bv).filter (fun n => n.isDefined)).filter
          (fun n => func n q)).length := by
      unfold entryCount
      have h1 : loadedNode fs q = n := by unfold loadedNode; rw [hfs]
      have h2 : getField n "Body" = bv := by unfold getField; rw [hbv]
      rw [h1, h2]
    refine ⟨db2,
      dsq ++ [Diag.doneReading
        ((((yiterItems bv).filter (fun n => n.isDefined)).filter
          (fun n => func n q)).length) q] ++ ds2,
      (Event.loadCall q ::
        ((yiterItems bv).filter (fun n => n.isDefined)).map
          (fun n => Event.funcCall n q)) ++ evs2, ?_, ?_, ?_, ?_⟩
    · rw [parseFiles_cons_loadTrue db fs func q rest db1 dsq bv hl hb2, hrec]
    · rw [List.cons_append, List.filterMap_cons, List.filterMap_append,
        List.filterMap_map]
      have hnone : (((yiterItems bv).filter (fun n => n.isDefined)).filterMap
          (Event.loadPath ∘ fun n => Event.funcCall n q)) = [] :=
        filterMap_none_list _
      simp only [Event.loadPath] at hnone ⊢
      rw [hnone, hpaths]
      rfl
    · intro nn qq hmem
      rcases List.mem_append.mp hmem with hmem1 | hmem2
      · rcases List.mem_cons.mp hmem1 with heq | hmem3
        · exact absurd heq (by simp)
        · obtain ⟨x, hx, hxeq⟩ := List.mem_map.mp hmem3
          injection hxeq with h1 h2
          refine ⟨?_, by rw [← h2]; exact List.mem_cons_self q rest⟩
          rw [← h1]
          exact (List.mem_filter.mp hx).2
      · obtain ⟨hdef, hqq⟩ := hfunc nn qq hmem2
        exact ⟨hdef, List.mem_cons_of_mem q hqq⟩
    · intro x hx
      rcases List.mem_cons.mp hx with heq | hmem
      · subst heq
        rw [hcount]
        exact List.mem_append_left _ (List.mem_append_right _ (List.mem_singleton.mpr rfl))
      · exact List.mem_append_right _ (hdone x hmem)

/-- C2: over the resolved location list, `parse` calls `load` on each
path in order, and the first load that returns false makes `parse`
return false immediately: the load trace is exactly the successful
prefix plus the failing path, and no remaining path is loaded or has its
entries iterated. -/
theorem parse_fail_fast (db : YamlDatabase) (cfg : PathConfig)
    (fs : String → Except YamlError YNode) (func : YNode → String → Bool)
    (filename : String) (location : Nat) (pre : List String) (p : String) (rest : List String)
    (hloc : getLocations cfg filename location = pre ++ p :: rest)
    (hpre : ∀ q ∈ pre, ∃ ds, loadOutcome db fs q = .ok (true, ds))
    (hp : ∃ ds, loadOutcome db fs p = .ok (false, ds)) :
    ∃ db2 ds evs,
      parse db cfg fs func filename location = .ok (false, db2, ds, evs) ∧
      evs.filterMap Event.loadPath = pre ++ [p] ∧
      (∀ n q, Event.funcCall n q ∈ evs → q ∈ pre) := by
  unfold parse
  rw [hloc]
  exact parseFiles_fail_fast_aux fs func p rest pre db hpre hp

/-- Witness for C2: the fixture filesystem loads the base file but fails
on the import overlay; `parse` returns false with exactly those two
loads and iterates entries only for the base file. -/
theorem parse_fail_fast_witness :
    ∃ db2 ds evs,
      parse db0w cfg0w fsW (fun _ _ => true) "item_db.yml" NORMAL_DB =
        .ok (false, db2, ds, evs) ∧
      evs.filterMap Event.loadPath = ["db/item_db.yml", "db/import/item_db.yml"] ∧
      (∀ n q, Event.funcCall n q ∈ evs → q ∈ ["db/item_db.yml"]) :=
  parse_fail_fast db0w cfg0w fsW (fun _ _ => true) "item_db.yml" NORMAL_DB
    ["db/item_db.yml"] "db/import/item_db.yml" [] rfl
    (by
      intro q hq
      rw [List.mem_singleton] at hq
      subst hq
      exact ⟨[], rfl⟩)
    ⟨[Diag.failedRead "ItemDb" "db/import/item_db.yml", Diag.excDetail "bad file" 0 0], rfl⟩

/-- C5: once every resolved file loads successfully, `parse` returns
true regardless of how many individual entries failed, invokes the
callback only on defined body nodes, never aborts on a false callback
return, and reports per file the count of entries the callback
accepted. -/
theorem parse_best_effort (db : YamlDatabase) (cfg : PathConfig)
    (fs : String → Except YamlError YNode) (func : YNode → String → Bool)
    (filename : String) (location : Nat)
    (hall : ∀ q ∈ getLocations cfg filename location,
      ∃ ds, loadOutcome db fs q = .ok (true, ds)) :
    ∃ db2 ds evs,
      parse db cfg fs func filename location = .ok (true, db2, ds, evs) ∧
      evs.filterMap Event.loadPath = getLocations cfg filename location ∧
      (∀ n q, Event.funcCall n q ∈ evs →
        n.isDefined = true ∧ q ∈ getLocations cfg filename location) ∧
      (∀ q ∈ getLocations cfg filename location,
        Diag.doneReading (entryCount fs func q) q ∈ ds) := by
  unfold parse
  exact parseFiles_success_aux fs func (getLocations cfg filename location) db hall

/-- Witness for C5: with both resolved files present and a callback that
rejects every entry, `parse` still returns true, iterates only defined
entries, and reports the zero counts. -/
theorem parse_best_effort_witness :
    ∃ db2 ds evs,
      parse db0w cfg0w fsG (fun _ _ => false) "item_db.yml" NORMAL_DB =
        .ok (true, db2, ds, evs) ∧
      evs.filterMap Event.loadPath = ["db/item_db.yml", "db/import/item_db.yml"] ∧
      (∀ n q, Event.funcCall n q ∈ evs → n.isDefined = true ∧
        q ∈ ["db/item_db.yml", "db/import/item_db.yml"]) ∧
      (∀ q ∈ ["db/item_db.yml", "db/import/item_db.yml"],
        Diag.doneReading (entryCount fsG (fun _ _ => false) q) q ∈ ds) :=
  parse_best_effort db0w cfg0w fsG (fun _ _ => false) "item_db.yml" NORMAL_DB
    (fun _ _ => ⟨[], rfl⟩)

/-- C7: an unrecognized placement category resolves to the empty
location list, and `parse` treats it as nothing to do: it returns true
with no load call, no callback invocation and no diagnostic, leaving the
instance untouched. -/
theorem parse_unknown_location (db : YamlDatabase) (cfg : PathConfig)
    (fs : String → Except YamlError YNode) (func : YNode → String → Bool)
    (filename : String) (location : Nat)
    (h0 : location ≠ NORMAL_DB) (h1 : location ≠ SPLIT_DB) (h2 : location ≠ CONF_DB) :
    parse db cfg fs func filename location = .ok (true, db, [], []) := by
  unfold parse getLocations
  simp [h0, h1, h2, parseFiles]

/-- Witness for C7 at the unrecognized category 9. -/
theorem parse_unknown_location_witness :
    parse db0w cfg0w fsW (fun _ _ => true) "item_db.yml" 9 = .ok (true, db0w, [], []) :=
  parse_unknown_location db0w cfg0w fsW (fun _ _ => true) "item_db.yml" 9
    (by decide) (by decide) (by decide)

end RathenaYamlDb
